import Mathlib

/-!
Verification development for the `celeste` analytics dashboard
(`utils/database.py` and `pages_content/statistics.py`).

The read/aggregate data-access layer is embedded shallowly:

* store rows (`customers`, `subscriptions`, `service_plans`) become Lean
  structures gathered in a `DB` value;
* calendar dates are day numbers (days since 1970-01-01, computed by the
  standard civil-calendar formula), and the `YYYY-MM-DD` strings stored in
  `end_date` columns are parsed by `parseDate`, mirroring
  `datetime.strptime(x, '%Y-%m-%d')`: parse failure is an exception,
  modelled as `Option`/`Except`;
* ISO timestamp strings (`created_at` sort keys) are compared
  lexicographically by code point, exactly as Python compares `str`;
* fallible code paths return `Except Unit`, and the `try/except` entry
  points are functions of the remote-store outcome (`Except Unit data`).
-/

/-! ## Calendar dates -/

/-- Day number (days since 1970-01-01) of a civil date, the classic
`days_from_civil` formula.  It is only applied to parsed `YYYY-MM-DD`
strings, so `0 ≤ y ≤ 9999`, where all integer-division conventions
agree with the C truncating division the formula was written for. -/
def daysFromCivil (y m d : Nat) : Int :=
  let yi : Int := if m ≤ 2 then (y : Int) - 1 else (y : Int)
  let era : Int := (if 0 ≤ yi then yi else yi - 399) / 400
  let yoe : Int := yi - era * 400
  let mp : Int := ((m : Int) + 9) % 12
  let doy : Int := (153 * mp + 2) / 5 + (d : Int) - 1
  let doe : Int := yoe * 365 + yoe / 4 - yoe / 100 + doy
  era * 146097 + doe - 719468

/-- Gregorian leap-year test, as `datetime` validates dates. -/
def isLeap (y : Nat) : Bool :=
  (y % 4 == 0 && y % 100 != 0) || (y % 400 == 0)

/-- Number of days of month `m` in year `y`. -/
def daysInMonth (y m : Nat) : Nat :=
  if m = 2 then (if isLeap y then 29 else 28)
  else if m = 4 ∨ m = 6 ∨ m = 9 ∨ m = 11 then 30
  else 31

/-- Split a character list on the `-` separator. -/
def splitDashAux : List Char → List Char → List (List Char)
  | [], acc => [acc.reverse]
  | c :: cs, acc =>
      if c = '-' then acc.reverse :: splitDashAux cs []
      else splitDashAux cs (c :: acc)

/-- Decimal value of a digit list. -/
def toNatDigits (l : List Char) : Nat :=
  l.foldl (fun a c => 10 * a + (c.toNat - 48)) 0

/-- Embedding of `datetime.strptime(s, '%Y-%m-%d').date()`: parse an ISO
`YYYY-MM-DD` string to its day number, `none` when the string does not
parse as a valid calendar date (in Python: a raised `ValueError`). -/
def parseDate (s : String) : Option Int :=
  match splitDashAux s.data [] with
  | [ys, ms, ds] =>
      if ys.length == 4 && ms.length == 2 && ds.length == 2
          && (ys ++ ms ++ ds).all Char.isDigit then
        let y := toNatDigits ys
        let m := toNatDigits ms
        let d := toNatDigits ds
        if 1 ≤ m && m ≤ 12 && 1 ≤ d && d ≤ daysInMonth y m then
          some (daysFromCivil y m d)
        else none
      else none
  | _ => none

/-! ## Lexicographic string comparison (Python `str` order) -/

/-- Lexicographic order on code-point lists, the order Python uses when
`list.sort` compares `str` keys. -/
def charListLe : List Char → List Char → Bool
  | [], _ => true
  | _ :: _, [] => false
  | a :: as, b :: bs =>
      if a.toNat < b.toNat then true
      else if b.toNat < a.toNat then false
      else charListLe as bs

/-- String comparison by code points. -/
def strLe (a b : String) : Bool := charListLe a.data b.data

theorem charListLe_total : ∀ as bs : List Char,
    charListLe as bs = true ∨ charListLe bs as = true := by
  intro as
  induction as with
  | nil => intro bs; left; rfl
  | cons a as ih =>
      intro bs
      cases bs with
      | nil => right; rfl
      | cons b bs =>
          by_cases h1 : a.toNat < b.toNat
          · left; simp [charListLe, h1]
          · by_cases h2 : b.toNat < a.toNat
            · right; simp [charListLe, h2]
            · rcases ih bs with h | h
              · left; simp [charListLe, h1, h2, h]
              · right; simp [charListLe, h1, h2, h]

theorem strLe_total (a b : String) : strLe a b = true ∨ strLe b a = true :=
  charListLe_total a.data b.data

/-! ## Data model

The three store tables read by the aggregator.  Fields that are pure
display payload (phone number, birth data, notes, payment reference,
cancellation metadata) are not needed by any embedded computation and
are omitted. -/

/-- A `service_plans` row. -/
structure ServicePlan where
  id : Nat
  name : String
  price : ℚ
  duration_days : Int
  is_trial : Bool
  is_active : Bool
  deriving DecidableEq

/-- A `subscriptions` row.  `end_date` is the raw column value: an ISO
date string, or `none` for SQL `NULL`.  `created_at` is an ISO timestamp
string. -/
structure Subscription where
  id : Nat
  customer_id : Nat
  service_plan_id : Nat
  end_date : Option String
  is_active : Bool
  status : String
  created_at : String
  deriving DecidableEq

/-- A `customers` row.  `zodiac_sign` and `ascendant` are nullable. -/
structure Customer where
  id : Nat
  name : String
  zodiac_sign : Option String
  ascendant : Option String
  created_at : String
  deriving DecidableEq

/-- The remote store contents seen by one invocation. -/
structure DB where
  customers : List Customer
  subscriptions : List Subscription
  service_plans : List ServicePlan
  deriving DecidableEq

/-- The SQL comparison `end_date >= today` used by the store-side
filters: `NULL` compares false. -/
def endDateGe (today : Int) (e : Option String) : Bool :=
  match e.bind parseDate with
  | some d => today ≤ d
  | none => false

/-- The SQL comparison `end_date <= bound`: `NULL` compares false. -/
def endDateLe (bound : Int) (e : Option String) : Bool :=
  match e.bind parseDate with
  | some d => d ≤ bound
  | none => false

/-- A subscription row passing the store-side filter
`is_active=true AND status='active' AND end_date >= today`. -/
def currentlyActive (today : Int) (s : Subscription) : Bool :=
  s.is_active && s.status == "active" && endDateGe today s.end_date

/-! ## `get_customer_stats` (utils/database.py lines 13-65) -/

/-- The dict returned by `get_customer_stats`. -/
structure CustomerStats where
  totale_clienti : Nat
  clienti_trial : Nat
  clienti_attivi : Nat
  clienti_scaduti : Nat
  deriving DecidableEq

/-- The rows of the `active_subs` query: subscriptions passing
`is_active=true, status='active', end_date >= today`, inner-joined with
their service plan (`service_plans!inner(is_trial)` drops rows whose
plan does not resolve). -/
def activeJoined (db : DB) (today : Int) : List (Subscription × ServicePlan) :=
  (db.subscriptions.filter (currentlyActive today)).filterMap
    (fun s => (db.service_plans.find? (fun p => p.id == s.service_plan_id)).map
      (fun p => (s, p)))

/-- Embedding of `get_customer_stats` (success path): total customer
count; the currently-active subscription rows split into trial/active by
the joined plan flag; and the count of subscriptions with
`status='expired'`. -/
def getCustomerStats (db : DB) (today : Int) : CustomerStats :=
  { totale_clienti := db.customers.length
    clienti_trial := (activeJoined db today).countP (fun sp => sp.2.is_trial)
    clienti_attivi := (activeJoined db today).countP (fun sp => !sp.2.is_trial)
    clienti_scaduti := db.subscriptions.countP (fun s => s.status == "expired") }

/-! ## `get_all_customers_details` and `get_filtered_customers`
(utils/database.py lines 203-286) -/

/-- One row of the DataFrame built by `get_all_customers_details`.
Display-only columns (phone, birth date, sign, plan name, start date,
registration date) are omitted; the columns the filters and the
days-remaining computation read are kept with their source names. -/
structure CRow where
  id : Nat
  nome : String
  stato_abbonamento : String
  is_trial : Bool
  data_scadenza : Option String
  is_active : Bool
  deriving DecidableEq

/-- Python `max(subs, key=lambda x: x.get('created_at',''))`: the first
row with the maximal `created_at` (later rows replace only on a strictly
greater key). -/
def maxByCreated (l : List Subscription) : Option Subscription :=
  l.foldl (fun acc s =>
    match acc with
    | none => some s
    | some m => if strLe s.created_at m.created_at && !(s.created_at == m.created_at)
        then some m
        else if strLe m.created_at s.created_at && !(m.created_at == s.created_at)
        then some s
        else some m) none

/-- The row `get_all_customers_details` builds for one customer: the
most recently created subscription is authoritative; a customer with no
subscription gets the `'N/A'` / `'Nessuno'` / `False` defaults. -/
def customerRow (db : DB) (c : Customer) : CRow :=
  match maxByCreated (db.subscriptions.filter (fun s => s.customer_id == c.id)) with
  | none =>
      { id := c.id, nome := c.name, stato_abbonamento := "Nessuno",
        is_trial := false, data_scadenza := some "N/A", is_active := false }
  | some s =>
      { id := c.id, nome := c.name, stato_abbonamento := s.status,
        is_trial := ((db.service_plans.find? (fun p => p.id == s.service_plan_id)).map
          (fun p => p.is_trial)).getD false,
        data_scadenza := s.end_date, is_active := s.is_active }

/-- Embedding of `get_all_customers_details` (success path). -/
def getAllCustomersDetails (db : DB) : List CRow :=
  db.customers.map (customerRow db)

/-- The `lambda x: (datetime.strptime(x, '%Y-%m-%d').date() - today).days
if x != 'N/A' else 0` applied to each `data_scadenza` cell
(utils/database.py lines 282-284).  Only the literal sentinel `'N/A'`
short-circuits to 0; a `NULL` cell (`strptime(None, ...)`, a
`TypeError`) or any other unparseable string (a `ValueError`) raises. -/
def giorniRimanentiCell (today : Int) : Option String → Except Unit Int
  | none => .error ()
  | some s =>
      if s == "N/A" then .ok 0
      else
        match parseDate s with
        | some d => .ok (d - today)
        | none => .error ()

/-- `Series.apply` of `giorniRimanentiCell` over the filtered rows:
stops at the first raising cell. -/
def mapGiorni (today : Int) : List CRow → Except Unit (List Int)
  | [] => .ok []
  | r :: rs =>
      match giorniRimanentiCell today r.data_scadenza with
      | .error e => .error e
      | .ok g =>
          match mapGiorni today rs with
          | .error e => .error e
          | .ok gs => .ok (g :: gs)

/-- Result of `get_filtered_customers`: the filtered rows, plus the
`giorni_rimanenti` column when the filter adds one. -/
structure Filtered where
  rows : List CRow
  giorni_rimanenti : Option (List Int)
  deriving DecidableEq

/-- Row predicate of the `'attivi'` branch. -/
def attiviPred (r : CRow) : Bool :=
  r.is_active && r.stato_abbonamento == "active" && !r.is_trial

/-- Row predicate of the `'trial'` branch. -/
def trialPred (r : CRow) : Bool :=
  r.is_active && r.stato_abbonamento == "active" && r.is_trial

/-- Embedding of `get_filtered_customers` (utils/database.py lines
242-286): empty table short-circuit, the four named filters, the
fall-through `else: return df` for any other filter kind, and the
days-remaining column added for `'attivi'`/`'trial'` (whose per-cell
parse errors propagate: the function has no `try/except`). -/
def getFilteredCustomers (db : DB) (today : Int) (filter_type : String) :
    Except Unit Filtered :=
  let df := getAllCustomersDetails db
  if df.isEmpty then .ok { rows := df, giorni_rimanenti := none }
  else if filter_type == "totale" then .ok { rows := df, giorni_rimanenti := none }
  else if filter_type == "attivi" then
    match mapGiorni today (df.filter attiviPred) with
    | .error e => .error e
    | .ok gs => .ok { rows := df.filter attiviPred, giorni_rimanenti := some gs }
  else if filter_type == "trial" then
    match mapGiorni today (df.filter trialPred) with
    | .error e => .error e
    | .ok gs => .ok { rows := df.filter trialPred, giorni_rimanenti := some gs }
  else if filter_type == "scaduti" then
    .ok { rows := df.filter (fun r => r.stato_abbonamento == "expired"),
          giorni_rimanenti := none }
  else .ok { rows := df, giorni_rimanenti := none }

/-! ## `get_expiring_subscriptions` (utils/database.py lines 123-199) -/

/-- One row of the `expiring_subscriptions_7_days` view: only the
`giorni_rimasti` column is read by the bucketing. -/
structure ExpRow where
  giorni_rimasti : Int
  deriving DecidableEq

/-- The dict returned by `get_expiring_subscriptions`. -/
structure ExpiringStats where
  oggi : Nat
  tre_giorni : Nat
  sette_giorni : Nat
  dettagli : List ExpRow
  deriving DecidableEq

/-- Embedding of `get_expiring_subscriptions` (view path): empty-result
short circuit, else `oggi` counts rows with exactly 0 days left,
`tre_giorni` counts rows with at most 3, `sette_giorni` is the whole
filtered set. -/
def getExpiringSubscriptions (rows : List ExpRow) : ExpiringStats :=
  if rows.isEmpty then
    { oggi := 0, tre_giorni := 0, sette_giorni := 0, dettagli := [] }
  else
    { oggi := rows.countP (fun r => r.giorni_rimasti == 0)
      tre_giorni := rows.countP (fun r => r.giorni_rimasti ≤ 3)
      sette_giorni := rows.length
      dettagli := rows }

/-- The manual fallback of `get_expiring_subscriptions` (lines 158-190):
query subscriptions with `is_active, status='active',
today <= end_date <= today+7`, compute `giorni_rimasti = end - today`
per row, and bucket with the same three counts. -/
def expiringFallbackGiorni (db : DB) (today : Int) : List Int :=
  (db.subscriptions.filter (fun s =>
      s.is_active && s.status == "active" && endDateGe today s.end_date
        && endDateLe (today + 7) s.end_date)).filterMap
    (fun s => (s.end_date.bind parseDate).map (fun d => d - today))

/-- Bucket counts of the fallback path over its computed
`giorni_rimasti` column. -/
def expiringFallbackStats (db : DB) (today : Int) : Nat × Nat × Nat :=
  let gs := expiringFallbackGiorni db today
  (gs.countP (fun g => g == 0), gs.countP (fun g => g ≤ 3), gs.length)

/-! ## `get_horoscopes_today` (utils/database.py lines 67-121) -/

/-- Computable floor of a rational: `num / den` with Euclidean integer
division (`den > 0`, so this is the mathematical floor). -/
def ratFloor (q : ℚ) : ℤ := q.num / (q.den : ℤ)

/-- Python `round(x)` at integer precision: round half to even. -/
def pyRoundHalfEven (x : ℚ) : ℤ :=
  let f := ratFloor x
  let r := x - (f : ℚ)
  if r < 1 / 2 then f
  else if 1 / 2 < r then f + 1
  else if f % 2 = 0 then f else f + 1

/-- Python `round(x, 1)`: round half to even at one decimal. -/
def pyRound1 (x : ℚ) : ℚ := (pyRoundHalfEven (10 * x) : ℚ) / 10

/-- Embedding of the success-rate computation of `get_horoscopes_today`
(lines 106-112): `round(generated / needed * 100, 1)` when
`needed > 0`, else 0. -/
def percentualeSuccesso (generated needed : Nat) : ℚ :=
  if 0 < needed then pyRound1 ((generated : ℚ) / (needed : ℚ) * 100) else 0

/-- The dict returned by `get_horoscopes_today`. -/
structure HoroscopeStats where
  generati : Nat
  necessari : Nat
  percentuale_successo : ℚ
  deriving DecidableEq

/-- The combination a customer contributes in the fallback loop of
`get_horoscopes_today` (lines 98-102): the `(zodiac_sign, ascendant)`
pair when both fields are truthy (non-null and non-empty), else
nothing. -/
def extractCombo (c : Customer) : Option (String × String) :=
  match c.zodiac_sign, c.ascendant with
  | some z, some a => if z ≠ "" && a ≠ "" then some (z, a) else none
  | _, _ => none

/-- The set-building loop of the fallback: insert each truthy
combination once. -/
def comboFold (acc : List (String × String)) (cs : List Customer) :
    List (String × String) :=
  cs.foldl (fun acc c =>
    match extractCombo c with
    | some combo => if combo ∈ acc then acc else combo :: acc
    | none => acc) acc

/-- Embedding of the fallback denominator (lines 92-104): fetch
customers with non-null ascendant, insert each truthy
`(zodiac_sign, ascendant)` pair into a set, return its size.  No
subscription table is consulted. -/
def fallbackCombinations (customers : List Customer) : Nat :=
  (comboFold [] (customers.filter (fun c => !(c.ascendant == none)))).length

/-- The `total_needed` denominator of `get_horoscopes_today`: the count
reported by the `active_customers_zodiac_combinations` view when that
query succeeds, else the manual fallback over the `customers` table. -/
def neededCombinationsCode (view : Except Unit Nat) (customers : List Customer) :
    Nat :=
  match view with
  | .ok n => n
  | .error _ => fallbackCombinations customers

/-- Whether a customer holds at least one currently-active
subscription. -/
def hasActiveSub (db : DB) (today : Int) (c : Customer) : Bool :=
  db.subscriptions.any (fun s => s.customer_id == c.id && currentlyActive today s)

/-- Modelled from the spec (the claim compares the code against this):
the denominator the spec prescribes, namely the number of distinct
`(sign, ascendant)` pairs among exactly the customers holding a
currently-active subscription, both fields non-null. -/
def neededCombinationsSpec (db : DB) (today : Int) : Nat :=
  (((db.customers.filter (hasActiveSub db today)).filterMap extractCombo).dedup).length

/-! ## `get_customer_timeline` (utils/database.py lines 447-499) -/

/-- One row of the DataFrame built by
`get_customer_subscriptions_history`, restricted to the columns the
timeline reads (`created_at`, `stato`, `data_fine`). -/
structure SubRow where
  created_at : String
  stato : String
  data_fine : String
  deriving DecidableEq

/-- One timeline event.  The `icona`/`descrizione`/`dettagli` display
strings of the source dict are presentation payload and are omitted;
`data` is the sort key, `tipo` the event kind. -/
structure Event where
  data : String
  tipo : String
  deriving DecidableEq

/-- Events appended for one subscription row: the start event always,
plus the expiry event at `data_fine` when `stato == 'expired'`. -/
def subEvents (s : SubRow) : List Event :=
  { data := s.created_at, tipo := "abbonamento_inizio" } ::
    (if s.stato == "expired" then
      [{ data := s.data_fine, tipo := "abbonamento_scaduto" }]
    else [])

/-- Stable insertion into a descending-sorted event list.  The inserted
element comes from earlier in the original list than every element of
the sorted tail, so it is placed before the first element whose key is
at most its own (in particular before equal keys). -/
def insertDesc (e : Event) : List Event → List Event
  | [] => [e]
  | b :: l =>
      if strLe b.data e.data then e :: b :: l
      else b :: insertDesc e l

/-- Stable descending sort by the `data` key: the semantics of Python
`timeline.sort(key=lambda x: x['data'], reverse=True)` (Timsort is a
stable sort; `reverse=True` sorts descending keeping the relative order
of equal keys). -/
def sortByDataDesc : List Event → List Event
  | [] => []
  | e :: l => insertDesc e (sortByDataDesc l)

/-- Embedding of `get_customer_timeline` (success path): a
`registrazione` event at the customer creation timestamp when the
customer resolved, the per-subscription events in row order, the whole
list stably sorted by date descending. -/
def buildTimeline (customer : Option Customer) (subs : List SubRow) : List Event :=
  sortByDataDesc
    ((match customer with
      | some c => [{ data := c.created_at, tipo := "registrazione" }]
      | none => []) ++ subs.flatMap subEvents)

/-! ## `get_arpu` (pages_content/statistics.py lines 10-20) -/

/-- Modelled from the spec: `get_arpu` is imported by
`pages_content/statistics.py` from `utils.database`, but its
implementation is not present under `src/`.  Section 4 of the spec
defines it: `compute_arpu(mrr, active_paying_count) = mrr /
active_paying_count` if the count is positive, else 0.  Division on
`ℚ` is total, so no division fault can occur. -/
def get_arpu (mrr : ℚ) (active_paying_count : Nat) : ℚ :=
  if 0 < active_paying_count then mrr / (active_paying_count : ℚ) else 0

/-! ## Entry points: `try/except` failure semantics

Each cached entry point of `utils/database.py` wraps its store queries
in `try/except`; an error anywhere in the block falls through to a
reported default.  The store outcome is modelled as a single
`Except Unit payload` argument: `.ok` carries the data the queries
returned, `.error` stands for any raised store error.  Each entry point
consults the store exactly once and never re-issues a failed query. -/

/-- Entry point `get_customer_stats` (lines 13-65): zero-valued dict on
store failure. -/
def getCustomerStatsEntry (today : Int) (store : Except Unit DB) : CustomerStats :=
  match store with
  | .ok db => getCustomerStats db today
  | .error _ =>
      { totale_clienti := 0, clienti_trial := 0, clienti_attivi := 0,
        clienti_scaduti := 0 }

/-- Entry point `get_horoscopes_today` (lines 67-121): zero-valued dict
on store failure. -/
def getHoroscopesTodayEntry
    (store : Except Unit (Nat × Except Unit Nat × List Customer)) :
    HoroscopeStats :=
  match store with
  | .ok (generated, view, customers) =>
      let needed := neededCombinationsCode view customers
      { generati := generated, necessari := needed,
        percentuale_successo := percentualeSuccesso generated needed }
  | .error _ =>
      { generati := 0, necessari := 0, percentuale_successo := 0 }

/-- Entry point `get_all_customers_details` (lines 203-240): empty
DataFrame on store failure. -/
def getAllCustomersDetailsEntry (store : Except Unit DB) : List CRow :=
  match store with
  | .ok db => getAllCustomersDetails db
  | .error _ => []

/-- Entry point `get_customer_by_id` (lines 342-361): `None` on store
failure. -/
def getCustomerByIdEntry (store : Except Unit (Option Customer)) :
    Option Customer :=
  match store with
  | .ok c => c
  | .error _ => none

/-- Entry point `get_customer_timeline` (lines 447-499): empty list on
store failure. -/
def getCustomerTimelineEntry
    (store : Except Unit (Option Customer × List SubRow)) : List Event :=
  match store with
  | .ok (c, subs) => buildTimeline c subs
  | .error _ => []

/-- Entry point `get_expiring_subscriptions` (lines 123-199): zero
counts and empty details when both the view query and the manual
fallback fail. -/
def getExpiringSubscriptionsEntry
    (store : Except Unit (List ExpRow)) (fallback : Except Unit DB)
    (today : Int) : ExpiringStats :=
  match store with
  | .ok rows => getExpiringSubscriptions rows
  | .error _ =>
      match fallback with
      | .ok db =>
          let st := expiringFallbackStats db today
          { oggi := st.1, tre_giorni := st.2.1, sette_giorni := st.2.2,
            dettagli := [] }
      | .error _ =>
          { oggi := 0, tre_giorni := 0, sette_giorni := 0, dettagli := [] }

/-- Write entry point `update_customer` (lines 503-521): `False` on
store failure, `True` otherwise. -/
def updateCustomerEntry (store : Except Unit Unit) : Bool :=
  match store with
  | .ok _ => true
  | .error _ => false

/-- Write entry point `cancel_subscription` (lines 523-546): `False` on
store failure, `True` otherwise. -/
def cancelSubscriptionEntry (store : Except Unit Unit) : Bool :=
  match store with
  | .ok _ => true
  | .error _ => false

/-- Write entry point `create_manual_subscription` (lines 548-592):
`False` when the plan lookup fails or does not resolve, or when the
insert fails. -/
def createManualSubscriptionEntry (planLookup : Except Unit (Option ServicePlan))
    (insert : Except Unit Unit) : Bool :=
  match planLookup with
  | .error _ => false
  | .ok none => false
  | .ok (some _) =>
      match insert with
      | .ok _ => true
      | .error _ => false

/-! ## Helper lemmas -/

theorem charListLe_refl : ∀ as : List Char, charListLe as as = true := by
  intro as
  induction as with
  | nil => rfl
  | cons a as ih => simp [charListLe, ih]

theorem charListLe_trans : ∀ as bs cs : List Char,
    charListLe as bs = true → charListLe bs cs = true →
    charListLe as cs = true := by
  intro as
  induction as with
  | nil => intro bs cs _ _; rfl
  | cons a as ih =>
      intro bs cs h1 h2
      cases bs with
      | nil => simp [charListLe] at h1
      | cons b bs =>
          cases cs with
          | nil => simp [charListLe] at h2
          | cons c cs =>
              simp only [charListLe] at h1 h2 ⊢
              by_cases hab : a.toNat < b.toNat
              · by_cases hbc : b.toNat < c.toNat
                · simp [show a.toNat < c.toNat by omega]
                · by_cases hcb : c.toNat < b.toNat
                  · simp [hbc, hcb] at h2
                  · simp [show a.toNat < c.toNat by omega]
              · by_cases hba : b.toNat < a.toNat
                · simp [hab, hba] at h1
                · by_cases hbc : b.toNat < c.toNat
                  · simp [show a.toNat < c.toNat by omega]
                  · by_cases hcb : c.toNat < b.toNat
                    · simp [hbc, hcb] at h2
                    · simp [hab, hba] at h1
                      simp [hbc, hcb] at h2
                      simp [show ¬ a.toNat < c.toNat by omega,
                        show ¬ c.toNat < a.toNat by omega]
                      exact ih bs cs h1 h2

theorem strLe_trans {a b c : String} (h1 : strLe a b = true)
    (h2 : strLe b c = true) : strLe a c = true :=
  charListLe_trans a.data b.data c.data h1 h2

theorem countP_bool_split {α : Type} (p : α → Bool) (l : List α) :
    l.countP p + l.countP (fun a => !(p a)) = l.length := by
  induction l with
  | nil => rfl
  | cons a l ih =>
      rcases hpa : p a with hv | hv <;>
        simp [List.countP_cons, hpa, ← ih] <;> omega

/-- Descending sortedness by the `data` key. -/
def sortedDesc (l : List Event) : Prop :=
  l.Pairwise (fun a b => strLe b.data a.data = true)

theorem mem_insertDesc {x e : Event} : ∀ {l : List Event},
    x ∈ insertDesc e l → x = e ∨ x ∈ l := by
  intro l
  induction l with
  | nil => intro h; simp [insertDesc] at h; exact Or.inl h
  | cons b l ih =>
      intro h
      simp only [insertDesc] at h
      by_cases hc : strLe b.data e.data = true
      · rw [if_pos hc] at h
        rcases List.mem_cons.mp h with h | h
        · exact Or.inl h
        · exact Or.inr h
      · rw [if_neg hc] at h
        rcases List.mem_cons.mp h with h | h
        · exact Or.inr (h ▸ List.mem_cons_self b l)
        · rcases ih h with h | h
          · exact Or.inl h
          · exact Or.inr (List.mem_cons_of_mem b h)

theorem insertDesc_perm (e : Event) : ∀ l : List Event,
    List.Perm (insertDesc e l) (e :: l) := by
  intro l
  induction l with
  | nil => simp [insertDesc]
  | cons b l ih =>
      simp only [insertDesc]
      by_cases hc : strLe b.data e.data = true
      · rw [if_pos hc]
      · rw [if_neg hc]
        exact List.Perm.trans (ih.cons b) (List.Perm.swap e b l)

theorem insertDesc_sorted (e : Event) : ∀ {l : List Event},
    sortedDesc l → sortedDesc (insertDesc e l) := by
  intro l
  induction l with
  | nil => intro _; simp [insertDesc, sortedDesc]
  | cons b l ih =>
      intro h
      rcases List.pairwise_cons.mp h with ⟨hb, hl⟩
      simp only [insertDesc]
      by_cases hc : strLe b.data e.data = true
      · rw [if_pos hc]
        refine List.pairwise_cons.mpr ⟨?_, h⟩
        intro y hy
        rcases List.mem_cons.mp hy with hy | hy
        · exact hy ▸ hc
        · exact strLe_trans (hb y hy) hc
      · rw [if_neg hc]
        refine List.pairwise_cons.mpr ⟨?_, ih hl⟩
        intro y hy
        rcases mem_insertDesc hy with hy | hy
        · subst hy
          rcases strLe_total b.data y.data with ht | ht
          · exact absurd ht hc
          · exact ht
        · exact hb y hy

theorem sortByDataDesc_perm : ∀ l : List Event,
    List.Perm (sortByDataDesc l) l := by
  intro l
  induction l with
  | nil => simp [sortByDataDesc]
  | cons e l ih =>
      exact List.Perm.trans (insertDesc_perm e (sortByDataDesc l)) (ih.cons e)

theorem sortByDataDesc_sorted : ∀ l : List Event,
    sortedDesc (sortByDataDesc l) := by
  intro l
  induction l with
  | nil => simp [sortByDataDesc, sortedDesc]
  | cons e l ih => exact insertDesc_sorted e ih

theorem countP_subEvents_inizio (s : SubRow) :
    (subEvents s).countP (fun ev => ev.tipo == "abbonamento_inizio") = 1 := by
  by_cases h : s.stato == "expired" <;> simp [subEvents, h, List.countP_cons]

theorem countP_subEvents_scaduto (s : SubRow) :
    (subEvents s).countP (fun ev => ev.tipo == "abbonamento_scaduto")
      = if s.stato == "expired" then 1 else 0 := by
  by_cases h : s.stato == "expired" <;> simp [subEvents, h, List.countP_cons]

theorem countP_subEvents_registrazione (s : SubRow) :
    (subEvents s).countP (fun ev => ev.tipo == "registrazione") = 0 := by
  by_cases h : s.stato == "expired" <;> simp [subEvents, h, List.countP_cons]

theorem countP_flatMap_subEvents (p : Event → Bool) : ∀ subs : List SubRow,
    (subs.flatMap subEvents).countP p
      = (subs.map (fun s => (subEvents s).countP p)).sum := by
  intro subs
  induction subs with
  | nil => rfl
  | cons s subs ih => simp [List.flatMap_cons, List.countP_append, ih]

theorem mapGiorni_ok_forall2 (today : Int) : ∀ (rows : List CRow) (gs : List Int),
    mapGiorni today rows = .ok gs →
    List.Forall₂ (fun r g => giorniRimanentiCell today r.data_scadenza = .ok g)
      rows gs := by
  intro rows
  induction rows with
  | nil =>
      intro gs h
      simp only [mapGiorni] at h
      cases h
      exact List.Forall₂.nil
  | cons r rows ih =>
      intro gs h
      simp only [mapGiorni] at h
      cases hc : giorniRimanentiCell today r.data_scadenza with
      | error e => rw [hc] at h; cases h
      | ok g =>
          rw [hc] at h
          cases hm : mapGiorni today rows with
          | error e => rw [hm] at h; cases h
          | ok gs0 =>
              rw [hm] at h
              cases h
              exact List.Forall₂.cons hc (ih gs0 hm)

theorem comboFold_cons (acc : List (String × String)) (c : Customer)
    (cs : List Customer) :
    comboFold acc (c :: cs) = comboFold
      (match extractCombo c with
       | some combo => if combo ∈ acc then acc else combo :: acc
       | none => acc) cs := by
  simp only [comboFold, List.foldl_cons]

theorem comboFold_toFinset : ∀ (cs : List Customer) (acc : List (String × String)),
    (comboFold acc cs).toFinset = acc.toFinset ∪ (cs.filterMap extractCombo).toFinset := by
  intro cs
  induction cs with
  | nil => intro acc; simp [comboFold]
  | cons c cs ih =>
      intro acc
      rw [comboFold_cons]
      cases he : extractCombo c with
      | none => simp only [he]; rw [ih]; simp [List.filterMap_cons, he]
      | some combo =>
          simp only [he]
          by_cases hm : combo ∈ acc
          · rw [if_pos hm, ih]
            simp only [List.filterMap_cons, he, List.toFinset_cons]
            ext x
            simp only [Finset.mem_union, List.mem_toFinset, Finset.mem_insert]
            have hcm : x = combo → x ∈ acc := fun h => h ▸ hm
            tauto
          · rw [if_neg hm, ih]
            simp only [List.filterMap_cons, he, List.toFinset_cons]
            ext x
            simp only [Finset.mem_union, List.mem_toFinset, Finset.mem_insert,
              List.mem_cons]
            tauto

theorem comboFold_nodup : ∀ (cs : List Customer) (acc : List (String × String)),
    acc.Nodup → (comboFold acc cs).Nodup := by
  intro cs
  induction cs with
  | nil => intro acc h; exact h
  | cons c cs ih =>
      intro acc h
      rw [comboFold_cons]
      cases he : extractCombo c with
      | none => simp only [he]; exact ih acc h
      | some combo =>
          simp only [he]
          by_cases hm : combo ∈ acc
          · rw [if_pos hm]; exact ih acc h
          · rw [if_neg hm]; exact ih _ (List.nodup_cons.mpr ⟨hm, h⟩)

theorem extractCombo_of_null_ascendant {c : Customer} (h : c.ascendant = none) :
    extractCombo c = none := by
  cases hz : c.zodiac_sign <;> simp [extractCombo, h, hz]

theorem filterMap_extractCombo_filter (cs : List Customer) :
    (cs.filter (fun c => !(c.ascendant == none))).filterMap extractCombo
      = cs.filterMap extractCombo := by
  induction cs with
  | nil => rfl
  | cons c cs ih =>
      cases ha : c.ascendant with
      | none =>
          simp [List.filter_cons, ha, List.filterMap_cons,
            extractCombo_of_null_ascendant ha, ih]
      | some a =>
          simp only [List.filter_cons, ha]
          simp [List.filterMap_cons, ih]

theorem fallbackCombinations_card (cs : List Customer) :
    fallbackCombinations cs = (cs.filterMap extractCombo).toFinset.card := by
  unfold fallbackCombinations
  have hnd : (comboFold [] (cs.filter (fun c => !(c.ascendant == none)))).Nodup :=
    comboFold_nodup _ [] List.nodup_nil
  have hfs := comboFold_toFinset (cs.filter (fun c => !(c.ascendant == none))) []
  rw [filterMap_extractCombo_filter] at hfs
  calc (comboFold [] (cs.filter (fun c => !(c.ascendant == none)))).length
      = (comboFold [] (cs.filter (fun c => !(c.ascendant == none)))).toFinset.card :=
        (List.toFinset_card_of_nodup hnd).symm
    _ = (cs.filterMap extractCombo).toFinset.card := by
        rw [hfs]; simp

theorem ratFloor_eq_floor (q : ℚ) : ratFloor q = ⌊q⌋ := Rat.floor_def.symm

theorem pyRoundHalfEven_near (x : ℚ) :
    |((pyRoundHalfEven x : ℤ) : ℚ) - x| ≤ 1 / 2 := by
  unfold pyRoundHalfEven
  rw [ratFloor_eq_floor]
  set f : ℤ := ⌊x⌋ with hf
  have h0 : (0 : ℚ) ≤ x - (f : ℚ) := by
    have := Int.floor_le x
    linarith
  have h1 : x - (f : ℚ) < 1 := by
    have := Int.lt_floor_add_one x
    linarith
  by_cases hlt : x - (f : ℚ) < 1 / 2
  · rw [if_pos hlt]
    rw [abs_le]
    constructor <;> linarith
  · rw [if_neg hlt]
    by_cases hgt : 1 / 2 < x - (f : ℚ)
    · rw [if_pos hgt]
      rw [abs_le]
      push_cast
      constructor <;> linarith
    · rw [if_neg hgt]
      have heq : x - (f : ℚ) = 1 / 2 := by linarith
      by_cases hev : f % 2 = 0
      · rw [if_pos hev]
        rw [abs_le]
        constructor <;> linarith
      · rw [if_neg hev]
        rw [abs_le]
        push_cast
        constructor <;> linarith

theorem pyRoundHalfEven_intCast (n : ℤ) : pyRoundHalfEven (n : ℚ) = n := by
  unfold pyRoundHalfEven
  rw [ratFloor_eq_floor, Int.floor_intCast]
  rw [if_pos]
  simp

theorem pyRound1_near (x : ℚ) : |pyRound1 x - x| ≤ 1 / 20 := by
  unfold pyRound1
  have h := pyRoundHalfEven_near (10 * x)
  have hx : ((pyRoundHalfEven (10 * x) : ℤ) : ℚ) / 10 - x
      = (((pyRoundHalfEven (10 * x) : ℤ) : ℚ) - 10 * x) / 10 := by ring
  rw [hx, abs_div]
  have h10 : |(10 : ℚ)| = 10 := by norm_num
  rw [h10]
  rw [div_le_iff₀ (by norm_num : (0:ℚ) < 10)]
  linarith

theorem pyRound1_intCast (n : ℤ) : pyRound1 ((n : ℤ) : ℚ) = ((n : ℤ) : ℚ) := by
  unfold pyRound1
  have : (10 : ℚ) * ((n : ℤ) : ℚ) = (((10 * n : ℤ) : ℤ) : ℚ) := by push_cast; ring
  rw [this, pyRoundHalfEven_intCast]
  push_cast
  ring

/-! ## Claim C1 -/

/-- Concrete day number for 2024-02-10. -/
def todayC1 : Int := daysFromCivil 2024 2 10

/-- A non-trial service plan. -/
def planC1 : ServicePlan :=
  { id := 1, name := "Mensile", price := 10, duration_days := 30,
    is_trial := false, is_active := true }

/-- An old expired subscription of the single customer. -/
def subC1expired : Subscription :=
  { id := 1, customer_id := 7, service_plan_id := 1,
    end_date := some "2023-12-01", is_active := false, status := "expired",
    created_at := "2023-11-01T00:00:00" }

/-- The same customer's most recently created subscription, currently
active. -/
def subC1active : Subscription :=
  { id := 2, customer_id := 7, service_plan_id := 1,
    end_date := some "2024-03-01", is_active := true, status := "active",
    created_at := "2024-02-01T00:00:00" }

/-- A store with one customer holding one expired and one currently
active subscription. -/
def dbC1 : DB :=
  { customers := [{ id := 7, name := "Maria Rossi", zodiac_sign := some "Leone",
                    ascendant := some "Vergine",
                    created_at := "2023-10-01T00:00:00" }],
    subscriptions := [subC1expired, subC1active],
    service_plans := [planC1] }

/-- Claim C1 (counterexample): `get_customer_stats` does not assign each
customer to at most one of active/trial/expired.  With one customer
whose most recently created subscription is currently active but who
also has an old expired subscription, the function reports 1 active and
1 expired against 1 total customer: the sum of the three class tallies
exceeds the customer count, so the single customer is counted in two
tallies, and the expired tally ignores which subscription is the most
recently created one. -/
theorem customerStats_double_counts_customer :
    getCustomerStats dbC1 todayC1 =
      { totale_clienti := 1, clienti_trial := 0, clienti_attivi := 1,
        clienti_scaduti := 1 }
    ∧ (getCustomerStats dbC1 todayC1).clienti_trial
        + (getCustomerStats dbC1 todayC1).clienti_attivi
        + (getCustomerStats dbC1 todayC1).clienti_scaduti
        > (getCustomerStats dbC1 todayC1).totale_clienti := by
  constructor
  · rfl
  · decide

/-- Claim C1 (amended): `get_customer_stats` tallies subscription rows,
not customers.  Every currently-active subscription row with a
resolvable plan is counted in exactly one of `clienti_trial` and
`clienti_attivi` (split by the plan's trial flag), `clienti_scaduti`
independently counts every subscription row with status `expired`, and
`totale_clienti` is the customer count — so a customer holding both a
currently-active and an expired subscription appears in two tallies. -/
theorem customerStats_subscription_tallies (db : DB) (today : Int) :
    (getCustomerStats db today).clienti_trial
        + (getCustomerStats db today).clienti_attivi
      = (activeJoined db today).length
    ∧ (getCustomerStats db today).clienti_scaduti
      = db.subscriptions.countP (fun s => s.status == "expired")
    ∧ (getCustomerStats db today).totale_clienti = db.customers.length := by
  refine ⟨?_, rfl, rfl⟩
  exact countP_bool_split (fun sp => sp.2.is_trial) (activeJoined db today)

/-! ## Claim C2 -/

/-- Concrete day number for 2024-01-10. -/
def todayC2 : Int := daysFromCivil 2024 1 10

/-- The single subscription of the C2 store: flagged active with status
`active` and a non-trial plan, but its end date 2024-01-05 lies strictly
before the reference day 2024-01-10. -/
def subC2 : Subscription :=
  { id := 3, customer_id := 7, service_plan_id := 1,
    end_date := some "2024-01-05", is_active := true, status := "active",
    created_at := "2024-01-01T00:00:00" }

/-- A store whose only customer has, as most recent subscription, the
past-end-date subscription above. -/
def dbC2 : DB :=
  { customers := [{ id := 7, name := "Maria Rossi", zodiac_sign := some "Leone",
                    ascendant := some "Vergine",
                    created_at := "2023-10-01T00:00:00" }],
    subscriptions := [subC2],
    service_plans := [planC1] }

/-- Claim C2 (counterexample): `get_filtered_customers('attivi')` does
not exclude a customer whose most recent subscription ended strictly
before today.  With an end date five days in the past but
`is_active = true` and `status = 'active'`, the customer is returned
(with a negative days-remaining value of -5) instead of excluded. -/
theorem filteredCustomers_attivi_includes_past_end_date :
    getFilteredCustomers dbC2 todayC2 "attivi" =
      .ok { rows := [{ id := 7, nome := "Maria Rossi",
                       stato_abbonamento := "active", is_trial := false,
                       data_scadenza := some "2024-01-05", is_active := true }],
            giorni_rimanenti := some [-5] }
    ∧ parseDate "2024-01-05" = some (todayC2 - 5) := by
  exact ⟨rfl, rfl⟩

/-- Claim C2 (amended): the `'attivi'` filter returns exactly the detail
rows with `is_active = true`, `stato_abbonamento = 'active'` and
`is_trial = false` — the predicate contains no end-date condition, so a
customer whose most recent subscription has `end_date` strictly before
today is included (its `giorni_rimanenti` merely comes out negative). -/
theorem filteredCustomers_attivi_characterization (db : DB) (today : Int)
    (out : Filtered) (h : getFilteredCustomers db today "attivi" = .ok out) :
    out.rows = (getAllCustomersDetails db).filter attiviPred := by
  unfold getFilteredCustomers at h
  by_cases he : (getAllCustomersDetails db).isEmpty
  · rw [if_pos he] at h
    cases h
    simp only
    rw [List.isEmpty_iff.mp he]
    rfl
  · rw [if_neg he] at h
    rw [if_neg (by decide : ¬ (("attivi" : String) == "totale") = true)] at h
    rw [if_pos (by decide : (("attivi" : String) == "attivi") = true)] at h
    cases hm : mapGiorni today ((getAllCustomersDetails db).filter attiviPred) with
    | error e => rw [hm] at h; cases h
    | ok gs => rw [hm] at h; cases h; rfl

/-- Witness for the amended C2 theorem at the concrete store `dbC2`. -/
theorem filteredCustomers_attivi_characterization_witness :
    ({ rows := [{ id := 7, nome := "Maria Rossi",
                  stato_abbonamento := "active", is_trial := false,
                  data_scadenza := some "2024-01-05", is_active := true }],
       giorni_rimanenti := some [-5] } : Filtered).rows
      = (getAllCustomersDetails dbC2).filter attiviPred :=
  filteredCustomers_attivi_characterization dbC2 todayC2 _ rfl

/-! ## Claim C3 -/

/-- Claim C3: `get_arpu` returns `mrr / active_paying_count` whenever the
count is positive and 0 when it is zero; as a total function on `ℚ` it
cannot raise a division error. -/
theorem get_arpu_spec (mrr : ℚ) (n : Nat) :
    (0 < n → get_arpu mrr n = mrr / (n : ℚ)) ∧ get_arpu mrr 0 = 0 := by
  constructor
  · intro h
    unfold get_arpu
    rw [if_pos h]
  · rfl

/-- Witness for the C3 theorem at `mrr = 10`, `count = 4`. -/
theorem get_arpu_spec_witness :
    0 < 4 ∧ get_arpu 10 4 = 10 / ((4 : Nat) : ℚ) :=
  ⟨by decide, (get_arpu_spec 10 4).1 (by decide)⟩

/-! ## Claim C4 -/

/-- Claim C4: every modelled entry point catches a remote-store error and
degrades to the empty/zero default of its return type — zero-valued dicts
for the stats readers, empty sequences for the tabular readers and the
timeline, `none` for the single-row reader, and `False` for the three
write entry points; each embedding consults the store outcome exactly
once, so no failed query is retried. -/
theorem entry_points_default_on_store_error (today : Int) (p : ServicePlan) :
    getCustomerStatsEntry today (.error ()) =
      { totale_clienti := 0, clienti_trial := 0, clienti_attivi := 0,
        clienti_scaduti := 0 }
    ∧ getHoroscopesTodayEntry (.error ()) =
      { generati := 0, necessari := 0, percentuale_successo := 0 }
    ∧ getAllCustomersDetailsEntry (.error ()) = []
    ∧ getCustomerByIdEntry (.error ()) = none
    ∧ getCustomerTimelineEntry (.error ()) = []
    ∧ getExpiringSubscriptionsEntry (.error ()) (.error ()) today =
      { oggi := 0, tre_giorni := 0, sette_giorni := 0, dettagli := [] }
    ∧ updateCustomerEntry (.error ()) = false
    ∧ cancelSubscriptionEntry (.error ()) = false
    ∧ createManualSubscriptionEntry (.error ()) (.ok ()) = false
    ∧ createManualSubscriptionEntry (.ok none) (.ok ()) = false
    ∧ createManualSubscriptionEntry (.ok (some p)) (.error ()) = false :=
  ⟨rfl, rfl, rfl, rfl, rfl, rfl, rfl, rfl, rfl, rfl, rfl⟩

/-! ## Claim C5 -/

/-- Claim C5: in `get_expiring_subscriptions`, `oggi` counts the rows
with exactly 0 days remaining, `tre_giorni` the rows with at most 3
(inclusive, so it contains the `oggi` rows), `sette_giorni` is the size
of the whole filtered set, and a row with `giorni_rimasti = 0` is
counted in all three buckets; hence `oggi ≤ tre_giorni ≤ sette_giorni`.
The same bucket inequalities hold for the manual fallback path. -/
theorem expiring_buckets (rows : List ExpRow) (db : DB) (today : Int) :
    (getExpiringSubscriptions rows).oggi
        = rows.countP (fun r => r.giorni_rimasti == 0)
    ∧ (getExpiringSubscriptions rows).tre_giorni
        = rows.countP (fun r => r.giorni_rimasti ≤ 3)
    ∧ (getExpiringSubscriptions rows).sette_giorni = rows.length
    ∧ (getExpiringSubscriptions rows).oggi
        ≤ (getExpiringSubscriptions rows).tre_giorni
    ∧ (getExpiringSubscriptions rows).tre_giorni
        ≤ (getExpiringSubscriptions rows).sette_giorni
    ∧ (∀ r ∈ rows, r.giorni_rimasti = 0 →
        1 ≤ (getExpiringSubscriptions rows).oggi
        ∧ 1 ≤ (getExpiringSubscriptions rows).tre_giorni
        ∧ 1 ≤ (getExpiringSubscriptions rows).sette_giorni)
    ∧ (expiringFallbackStats db today).1 ≤ (expiringFallbackStats db today).2.1
    ∧ (expiringFallbackStats db today).2.1
        ≤ (expiringFallbackStats db today).2.2 := by
  have hmono : ∀ l : List ExpRow,
      l.countP (fun r => r.giorni_rimasti == 0)
        ≤ l.countP (fun r => r.giorni_rimasti ≤ 3) := by
    intro l
    refine List.countP_mono_left ?_
    intro r _ hr
    simp only [beq_iff_eq] at hr
    simp [hr]
  have hq : (getExpiringSubscriptions rows).oggi
        = rows.countP (fun r => r.giorni_rimasti == 0)
      ∧ (getExpiringSubscriptions rows).tre_giorni
        = rows.countP (fun r => r.giorni_rimasti ≤ 3)
      ∧ (getExpiringSubscriptions rows).sette_giorni = rows.length := by
    by_cases he : rows.isEmpty
    · rw [List.isEmpty_iff.mp he]
      exact ⟨rfl, rfl, rfl⟩
    · unfold getExpiringSubscriptions
      rw [if_neg he]
      exact ⟨rfl, rfl, rfl⟩
  rcases hq with ⟨hoggi, htre, hsette⟩
  refine ⟨hoggi, htre, hsette, ?_, ?_, ?_, ?_, ?_⟩
  · rw [hoggi, htre]; exact hmono rows
  · rw [htre, hsette]; exact List.countP_le_length _
  · intro r hr h0
    have h1 : 1 ≤ rows.countP (fun r => r.giorni_rimasti == 0) :=
      List.countP_pos_iff.mpr ⟨r, hr, by simp [h0]⟩
    refine ⟨hoggi ▸ h1, htre ▸ Nat.le_trans h1 (hmono rows), ?_⟩
    rw [hsette]
    exact Nat.le_trans h1 (List.countP_le_length _)
  · show (expiringFallbackGiorni db today).countP (fun g => g == 0)
        ≤ (expiringFallbackGiorni db today).countP (fun g => g ≤ 3)
    refine List.countP_mono_left ?_
    intro g _ hg
    simp only [beq_iff_eq] at hg
    simp [hg]
  · exact List.countP_le_length _

/-- Witness for the C5 theorem: a single view row with 0 days remaining
is counted in all three buckets. -/
theorem expiring_buckets_witness :
    ({ giorni_rimasti := 0 } : ExpRow) ∈ [({ giorni_rimasti := 0 } : ExpRow)]
    ∧ (1 ≤ (getExpiringSubscriptions [({ giorni_rimasti := 0 } : ExpRow)]).oggi
       ∧ 1 ≤ (getExpiringSubscriptions [({ giorni_rimasti := 0 } : ExpRow)]).tre_giorni
       ∧ 1 ≤ (getExpiringSubscriptions [({ giorni_rimasti := 0 } : ExpRow)]).sette_giorni) :=
  ⟨by decide,
    ((expiring_buckets [{ giorni_rimasti := 0 }]
      { customers := [], subscriptions := [], service_plans := [] } 0).2.2.2.2.2.1)
      { giorni_rimasti := 0 } (by decide) rfl⟩

/-! ## Claim C6 -/

theorem sum_map_one {α : Type} (l : List α) :
    (l.map (fun _ => (1 : Nat))).sum = l.length := by
  induction l with
  | nil => rfl
  | cons a l ih =>
      rw [List.map_cons, List.sum_cons, ih, List.length_cons]
      exact Nat.add_comm 1 l.length

theorem sum_map_ite_expired (subs : List SubRow) :
    (subs.map (fun s => if (s.stato == "expired") = true then 1 else 0)).sum
      = subs.countP (fun s => s.stato == "expired") := by
  induction subs with
  | nil => rfl
  | cons s subs ih =>
      rw [List.map_cons, List.sum_cons, List.countP_cons, ih]
      exact Nat.add_comm _ _

/-- The customer of the C6 scenario, created 2024-01-01. -/
def custC6 : Customer :=
  { id := 1, name := "Anna Bianchi", zodiac_sign := some "Ariete",
    ascendant := some "Toro", created_at := "2024-01-01" }

/-- The single subscription of the C6 scenario: created 2024-01-05,
status `expired`, end date 2024-02-05. -/
def subC6 : SubRow :=
  { created_at := "2024-01-05", stato := "expired", data_fine := "2024-02-05" }

/-- Claim C6: `get_customer_timeline` emits exactly one `registrazione`
event, one start event per subscription, and one expiry event exactly
for the subscriptions with status `expired`, sorted descending by event
date; in the concrete scenario (customer created 2024-01-01, one
subscription created 2024-01-05, expired, end date 2024-02-05) it yields
exactly the three events expiry, start, registration in that order. -/
theorem customer_timeline_events (c : Customer) (subs : List SubRow) :
    (buildTimeline (some c) subs).countP (fun ev => ev.tipo == "registrazione") = 1
    ∧ (buildTimeline (some c) subs).countP
        (fun ev => ev.tipo == "abbonamento_inizio") = subs.length
    ∧ (buildTimeline (some c) subs).countP
        (fun ev => ev.tipo == "abbonamento_scaduto")
      = subs.countP (fun s => s.stato == "expired")
    ∧ sortedDesc (buildTimeline (some c) subs)
    ∧ buildTimeline (some custC6) [subC6] =
        [{ data := "2024-02-05", tipo := "abbonamento_scaduto" },
         { data := "2024-01-05", tipo := "abbonamento_inizio" },
         { data := "2024-01-01", tipo := "registrazione" }] := by
  have hperm : ∀ p : Event → Bool,
      (buildTimeline (some c) subs).countP p
        = (({ data := c.created_at, tipo := "registrazione" } ::
            subs.flatMap subEvents : List Event)).countP p := by
    intro p
    exact (sortByDataDesc_perm _).countP_eq p
  refine ⟨?_, ?_, ?_, sortByDataDesc_sorted _, rfl⟩
  · rw [hperm]
    rw [List.countP_cons]
    rw [countP_flatMap_subEvents]
    simp [countP_subEvents_registrazione]
  · rw [hperm]
    rw [List.countP_cons]
    rw [countP_flatMap_subEvents]
    simp only [countP_subEvents_inizio]
    rw [sum_map_one]
    simp
  · rw [hperm]
    rw [List.countP_cons]
    rw [countP_flatMap_subEvents]
    simp only [countP_subEvents_scaduto]
    rw [sum_map_ite_expired]
    simp

/-! ## Claim C7 -/

/-- A store with a single customer who has a zodiac sign and ascendant
but no subscription at all. -/
def dbC7 : DB :=
  { customers := [{ id := 9, name := "Luca Verdi", zodiac_sign := some "Leone",
                    ascendant := some "Vergine",
                    created_at := "2023-10-01T00:00:00" }],
    subscriptions := [],
    service_plans := [] }

/-- Concrete day number for 2024-02-10 used by the C7 counterexample. -/
def todayC7 : Int := daysFromCivil 2024 2 10

/-- Claim C7 (counterexample): when the combinations view is
unavailable, the fallback denominator of `get_horoscopes_today` counts a
customer with no currently-active subscription.  With one such customer
the code computes 1 needed combination while the spec denominator over
active customers is 0. -/
theorem needed_combinations_fallback_ignores_subscriptions :
    neededCombinationsCode (.error ()) dbC7.customers = 1
    ∧ neededCombinationsSpec dbC7 todayC7 = 0
    ∧ neededCombinationsCode (.error ()) dbC7.customers
        ≠ neededCombinationsSpec dbC7 todayC7 := by
  refine ⟨rfl, rfl, ?_⟩
  intro h
  rw [show neededCombinationsCode (.error ()) dbC7.customers = 1 from rfl,
      show neededCombinationsSpec dbC7 todayC7 = 0 from rfl] at h
  cases h

/-- Claim C7 (amended): the denominator of `get_horoscopes_today` is the
view count verbatim when the view query succeeds; when it fails, the
fallback counts the distinct `(zodiac_sign, ascendant)` pairs among all
customers with both fields truthy — the subscription table plays no
role in the fallback. -/
theorem needed_combinations_code_characterization (view : Except Unit Nat)
    (customers : List Customer) :
    (∀ n, view = .ok n → neededCombinationsCode view customers = n)
    ∧ (view = .error () → neededCombinationsCode view customers
        = (customers.filterMap extractCombo).toFinset.card) := by
  constructor
  · intro n h
    subst h
    rfl
  · intro h
    subst h
    exact fallbackCombinations_card customers

/-- Witness for the amended C7 theorem at the concrete store `dbC7`. -/
theorem needed_combinations_code_characterization_witness :
    neededCombinationsCode (.error ()) dbC7.customers
      = (dbC7.customers.filterMap extractCombo).toFinset.card :=
  (needed_combinations_code_characterization (.error ()) dbC7.customers).2 rfl

/-! ## Claim C8 -/

/-- Claim C8: the success percentage of `get_horoscopes_today` is
`generated / needed * 100` rounded to one decimal when `needed > 0`
(hence within 1/20 of the exact ratio) and 0 when `needed = 0`; as a
total function it cannot raise a division error.  In particular it maps
`(0, 0)` to 0, `(5, 5)` to 100 and `(3, 12)` to 25. -/
theorem percentuale_successo_safe (g n : Nat) :
    percentualeSuccesso g 0 = 0
    ∧ (0 < n → percentualeSuccesso g n = pyRound1 ((g : ℚ) / (n : ℚ) * 100))
    ∧ (0 < n → |percentualeSuccesso g n - (g : ℚ) / (n : ℚ) * 100| ≤ 1 / 20)
    ∧ percentualeSuccesso 0 0 = 0
    ∧ percentualeSuccesso 5 5 = 100
    ∧ percentualeSuccesso 3 12 = 25 := by
  have hpos : ∀ (g0 n0 : Nat), 0 < n0 →
      percentualeSuccesso g0 n0 = pyRound1 ((g0 : ℚ) / (n0 : ℚ) * 100) := by
    intro g0 n0 h
    unfold percentualeSuccesso
    rw [if_pos h]
  refine ⟨rfl, hpos g n, ?_, rfl, ?_, ?_⟩
  · intro h
    rw [hpos g n h]
    exact pyRound1_near _
  · rw [hpos 5 5 (by norm_num)]
    have h5 : ((5 : Nat) : ℚ) / ((5 : Nat) : ℚ) * 100 = ((100 : ℤ) : ℚ) := by
      norm_num
    rw [h5, pyRound1_intCast]
    norm_num
  · rw [hpos 3 12 (by norm_num)]
    have h3 : ((3 : Nat) : ℚ) / ((12 : Nat) : ℚ) * 100 = ((25 : ℤ) : ℚ) := by
      norm_num
    rw [h3, pyRound1_intCast]
    norm_num

/-- Witness for the C8 theorem at `generated = 3`, `needed = 12`. -/
theorem percentuale_successo_safe_witness :
    0 < 12
    ∧ percentualeSuccesso 3 12
        = pyRound1 (((3 : Nat) : ℚ) / ((12 : Nat) : ℚ) * 100) :=
  ⟨by decide, (percentuale_successo_safe 3 12).2.1 (by decide)⟩

/-! ## Claim C9 -/

/-- A subscription whose end-date column holds a string that does not
parse as a date. -/
def subC9 : Subscription :=
  { id := 4, customer_id := 7, service_plan_id := 1,
    end_date := some "garbage", is_active := true, status := "active",
    created_at := "2024-01-01T00:00:00" }

/-- A store whose only customer has the unparseable-end-date
subscription as most recent subscription. -/
def dbC9 : DB :=
  { customers := [{ id := 7, name := "Maria Rossi", zodiac_sign := some "Leone",
                    ascendant := some "Vergine",
                    created_at := "2023-10-01T00:00:00" }],
    subscriptions := [subC9],
    service_plans := [planC1] }

/-- Claim C9 (counterexample): for a row whose end-date string is
unparseable (but different from the literal sentinel `'N/A'`),
`get_filtered_customers('attivi')` does not yield 0 days remaining — the
`strptime` exception propagates and the whole call raises. -/
theorem giorni_rimanenti_raises_on_unparseable :
    getFilteredCustomers dbC9 todayC2 "attivi" = .error ()
    ∧ parseDate "garbage" = none := ⟨rfl, rfl⟩

/-- Claim C9 (amended): for the `'attivi'`/`'trial'` filters the
per-row computation is `end_date − today` in whole days for every row
whose end-date string parses; the value 0 is produced only for the
literal sentinel `'N/A'` (the no-subscription default), while a `NULL`
end date or any other unparseable string raises instead of yielding 0;
on a successful call every entry of the `giorni_rimanenti` column is
the cell value of the corresponding returned row. -/
theorem giorni_rimanenti_semantics :
    (∀ (today : Int) (s : String) (d : Int), parseDate s = some d →
      giorniRimanentiCell today (some s) = .ok (d - today))
    ∧ (∀ today : Int, giorniRimanentiCell today (some "N/A") = .ok 0)
    ∧ (∀ (today : Int) (s : String), parseDate s = none → s ≠ "N/A" →
      giorniRimanentiCell today (some s) = .error ())
    ∧ (∀ today : Int, giorniRimanentiCell today none = .error ())
    ∧ (∀ (db : DB) (today : Int) (out : Filtered) (gs : List Int),
      getFilteredCustomers db today "attivi" = .ok out →
      out.giorni_rimanenti = some gs →
      List.Forall₂
        (fun r g => giorniRimanentiCell today r.data_scadenza = .ok g)
        out.rows gs) := by
  refine ⟨?_, fun _ => rfl, ?_, fun _ => rfl, ?_⟩
  · intro today s d h
    by_cases hna : (s == "N/A") = true
    · have hs : s = "N/A" := eq_of_beq hna
      subst hs
      rw [show parseDate "N/A" = none from rfl] at h
      cases h
    · show (if (s == "N/A") = true then Except.ok 0
          else match parseDate s with
            | some d0 => Except.ok (d0 - today)
            | none => Except.error ()) = Except.ok (d - today)
      rw [if_neg hna, h]
  · intro today s hparse hne
    show (if (s == "N/A") = true then Except.ok 0
        else match parseDate s with
          | some d0 => Except.ok (d0 - today)
          | none => Except.error ()) = Except.error ()
    rw [if_neg (by simpa using hne), hparse]
  · intro db today out gs h hg
    unfold getFilteredCustomers at h
    by_cases he : (getAllCustomersDetails db).isEmpty
    · rw [if_pos he] at h
      cases h
      simp at hg
    · rw [if_neg he] at h
      rw [if_neg (by decide : ¬ (("attivi" : String) == "totale") = true)] at h
      rw [if_pos (by decide : (("attivi" : String) == "attivi") = true)] at h
      cases hm : mapGiorni today ((getAllCustomersDetails db).filter attiviPred) with
      | error e => rw [hm] at h; cases h
      | ok gs0 =>
          rw [hm] at h
          cases h
          simp only at hg
          cases hg
          exact mapGiorni_ok_forall2 today _ _ hm

/-- Witness for the amended C9 theorem: a parseable end date five days
before the reference day yields -5. -/
theorem giorni_rimanenti_semantics_witness :
    parseDate "2024-01-05" = some (todayC2 - 5)
    ∧ giorniRimanentiCell todayC2 (some "2024-01-05")
        = .ok ((todayC2 - 5) - todayC2) :=
  ⟨rfl, giorni_rimanenti_semantics.1 todayC2 "2024-01-05" (todayC2 - 5) rfl⟩

/-! ## Claim C10 -/

/-- Claim C10: any filter kind outside `totale`/`attivi`/`trial`/
`scaduti` falls through to `return df`: the result is the complete
customer table, without a `giorni_rimanenti` column, identical to the
result for `'totale'` — no error and no empty result. -/
theorem filteredCustomers_unknown_filter_total (db : DB) (today : Int)
    (ft : String) (h1 : ft ≠ "totale") (h2 : ft ≠ "attivi")
    (h3 : ft ≠ "trial") (h4 : ft ≠ "scaduti") :
    getFilteredCustomers db today ft
      = .ok { rows := getAllCustomersDetails db, giorni_rimanenti := none }
    ∧ getFilteredCustomers db today ft = getFilteredCustomers db today "totale" := by
  have e1 : (ft == "totale") = false := beq_eq_false_iff_ne.mpr h1
  have e2 : (ft == "attivi") = false := beq_eq_false_iff_ne.mpr h2
  have e3 : (ft == "trial") = false := beq_eq_false_iff_ne.mpr h3
  have e4 : (ft == "scaduti") = false := beq_eq_false_iff_ne.mpr h4
  have hmain : getFilteredCustomers db today ft
      = .ok { rows := getAllCustomersDetails db, giorni_rimanenti := none } := by
    unfold getFilteredCustomers
    by_cases he : (getAllCustomersDetails db).isEmpty
    · rw [if_pos he]
    · rw [if_neg he, e1, e2, e3, e4]
      simp
  have htot : getFilteredCustomers db today "totale"
      = .ok { rows := getAllCustomersDetails db, giorni_rimanenti := none } := by
    unfold getFilteredCustomers
    by_cases he : (getAllCustomersDetails db).isEmpty
    · rw [if_pos he]
    · rw [if_neg he]
      rfl
  exact ⟨hmain, hmain.trans htot.symm⟩

/-- Witness for the C10 theorem at the concrete store `dbC2` and the
unknown filter kind `'foo'`. -/
theorem filteredCustomers_unknown_filter_total_witness :
    getFilteredCustomers dbC2 todayC2 "foo"
      = .ok { rows := getAllCustomersDetails dbC2, giorni_rimanenti := none }
    ∧ getFilteredCustomers dbC2 todayC2 "foo"
      = getFilteredCustomers dbC2 todayC2 "totale" :=
  filteredCustomers_unknown_filter_total dbC2 todayC2 "foo"
    (by decide) (by decide) (by decide) (by decide)
